import Mathlib

/-!
Shallow embedding of the provider registration orchestrator
(`identity/registry/provider_registrar.go`).

The orchestrator is a worker loop that drives service-status events through
status-check, eligibility-check, legacy-registry migration lookup and
transaction submission, with bounded retry.  External collaborators
(chain gateway, transactor, beneficiary store) are modelled as deterministic
oracles in an `Env` record; every external call the pipeline makes is recorded
in a trace so that "no submission call occurs"-style properties are statable.
-/

namespace Registry

/-- Go `error` values, as produced by `errors.New` / `fmt.Errorf` and layered by
`errors.Wrap` / `fmt.Errorf("...: %w", err)`: either a base message or a wrap of
a cause with a context message. -/
inductive GoError where
  | msg (s : String)
  | wrap (context : String) (cause : GoError)
deriving DecidableEq, Repr

/-- A 20-byte Ethereum address (`common.Address`), as its list of byte values
(each in 0..255; the length invariant is maintained by every address built in
this development). -/
structure Address where
  bytes : List Nat
deriving DecidableEq, Repr

/-- Constant from the source: `common.HexToAddress("0xDFAB03C9fbDbef66dA105B88776B35bfd7743D39")`. -/
def newRegistryAddress : Address :=
  ⟨[0xDF, 0xAB, 0x03, 0xC9, 0xFB, 0xDB, 0xEF, 0x66, 0xDA, 0x10,
    0x5B, 0x88, 0x77, 0x6B, 0x35, 0xBF, 0xD7, 0x74, 0x3D, 0x39]⟩

/-- Constant from the source: `common.HexToAddress("0x15B1281F4e58215b2c3243d864BdF8b9ddDc0DA2")`. -/
def oldRegistryAddress : Address :=
  ⟨[0x15, 0xB1, 0x28, 0x1F, 0x4E, 0x58, 0x21, 0x5B, 0x2C, 0x32,
    0x43, 0xD8, 0x64, 0xBD, 0xF8, 0xB9, 0xDD, 0xDC, 0x0D, 0xA2]⟩

/-- Constant from the source: `common.HexToAddress("0x00...00")`, the sentinel. -/
def zeroAddress : Address := ⟨List.replicate 20 0⟩

/-- Source: `bytes.EqualFold(in.Bytes(), zeroAddress.Bytes())`.  Against the
all-zero byte string, Unicode case folding is the identity: U+0000 folds only
to itself and its only UTF-8 encoding is the single byte 0x00 (overlong
encodings are rejected by Go's decoder), so `EqualFold` with twenty zero bytes
holds exactly when every byte is zero, i.e. it is plain byte equality. -/
def isZeroAddress (a : Address) : Bool := a.bytes == zeroAddress.bytes

/-- Modelled from the spec: the `identity` package is outside the sampled
sources.  "Identity: a provider's on-chain address", key attribute "address
string"; `identity.FromAddress` wraps the raw address string unchanged. -/
structure Identity where
  address : String
deriving DecidableEq, Repr

/-- Modelled from the spec: `identity.FromAddress`. -/
def Identity.fromAddress (s : String) : Identity := ⟨s⟩

/-- Modelled from the spec: `servicestate.AppEventServiceStatus` carries the
provider's identity address and a status string that the admission filter
compares against the literal "Running" value. -/
structure AppEventServiceStatus where
  status : String
  providerID : String
deriving DecidableEq, Repr

/-- Modelled from the spec: `string(servicestate.Running)`, "compared against
the literal \"Running\" value". -/
def runningStatus : String := "Running"

/-- Source: `queuedEvent` — a service-status event together with its retry
count.  The count starts at 0 and is only ever incremented, so it is a `Nat`. -/
structure QueuedEvent where
  event : AppEventServiceStatus
  retries : Nat
deriving DecidableEq, Repr

/-- Modelled from the spec: "Registration Status ... enum {Registered,
NotRegistered}".  The source switches on `Registered` and sends every other
status into the `default:` branch, so two constructors capture the control
flow. -/
inductive RegistrationStatus where
  | Registered
  | NotRegistered
deriving DecidableEq, Repr

/-- Source: `ProviderRegistrarConfig`.  `DelayBetweenRetries` is a wall-clock
duration (here an abstract number of time units); it plays no part in the
control flow modelled in this development.  `MaxRetries` is a Go `int`, hence
`Int`. -/
structure ProviderRegistrarConfig where
  isTestnet3 : Bool
  maxRetries : Int
  delayBetweenRetries : Nat
deriving DecidableEq, Repr

/-- One observable external call made by the pipeline.  Addresses are recorded
as `Address` values: the source passes `settleBeneficiary.Hex()` (resp.
`benef.Hex()`) to submission and save, and `id.ToCommonAddress()` to the
beneficiary read; those encodings are injective, and no claim inspects the
encoded form, so the trace records the address (resp. identity) itself.
`scheduleRetry n` records `go pr.delayedRequeue(qe)` — the scheduling of a
delayed re-enqueue (racing the shutdown signal) for an event whose retry count
has been bumped to `n`. -/
inductive Call where
  | getRegistrationStatus (chainID : Int) (id : Identity)
  | checkIfRegistrationBountyEligible (id : Identity)
  | getRegistryAddress (chainID : Int)
  | getBeneficiary (chainID : Int) (registryAddress : Address) (id : Identity)
  | getChannelAddress (chainID : Int) (id : Identity)
  | registerIdentity (id : String) (stake : Int) (fee : Option Int)
      (beneficiary : Address) (chainID : Int) (referralToken : Option String)
  | save (id : String) (beneficiary : Address)
  | scheduleRetry (retries : Nat)
deriving DecidableEq, Repr

/-- The orchestrator's external collaborators (`registrationStatusChecker`,
`txer`, `multiChainAddressKeeper`, `bc`, `bsaver`) as deterministic oracles,
together with the ambient chain-id configuration the source reads through
`config.GetInt64(config.FlagChainID / FlagChain1ChainID / FlagChain2ChainID)`.

Calls whose error the caller early-returns are `Except`.  `getBeneficiary`
returns the full Go pair `(common.Address, error)` because its caller in
`getBeneficiaryFromOldRegistry` uses the address component even when the error
is non-nil — exactly the behaviour under scrutiny in the migration lookup. -/
structure Env where
  getRegistrationStatus : Int → Identity → Except GoError RegistrationStatus
  checkIfRegistrationBountyEligible : Identity → Except GoError Bool
  registerIdentity : String → Int → Option Int → Address → Int → Option String → Option GoError
  getRegistryAddress : Int → Except GoError Address
  getChannelAddress : Int → Identity → Except GoError Address
  getBeneficiary : Int → Address → Identity → Address × Option GoError
  save : String → Address → Option GoError
  chainID : Int
  l1chainID : Int
  l2chainID : Int

/-- The in-memory known-registered set `registeredIdentities` (`map[string]struct{}`),
as the list of its keys. -/
abbrev RegisteredSet := List String

/-- Result of a pipeline stage: the external calls it made, the updated
known-registered set, and the Go error it returned (`none` = nil). -/
structure PipelineResult where
  trace : List Call
  registered : RegisteredSet
  err : Option GoError
deriving DecidableEq, Repr

/-- Source: `getBeneficiaryFromOldRegistry`.  Reads the registry address for
the legacy (l1) chain; a failure there is wrapped and propagated.  If the
result equals `newRegistryAddress` (source: `bytes.EqualFold` on the byte
strings; byte equality is the triggering case, and every fold-equivalent alias
takes the same branch, which no claim distinguishes), the old registry is
queried on the fixed chain id 5 for a previously-set beneficiary; an error of
that read is only logged, and the address component of the reply is returned
with a nil error regardless.  Otherwise the zero address is returned. -/
def getBeneficiaryFromOldRegistry (env : Env) (id : Identity) :
    List Call × Except GoError Address :=
  match env.getRegistryAddress env.l1chainID with
  | .error e =>
      ([.getRegistryAddress env.l1chainID],
       .error (.wrap ("could not get registry address for chain " ++ toString env.l1chainID) e))
  | .ok registryAddress =>
      if registryAddress = newRegistryAddress then
        let benef := (env.getBeneficiary 5 oldRegistryAddress id).1
        ([.getRegistryAddress env.l1chainID, .getBeneficiary 5 oldRegistryAddress id],
         .ok benef)
      else
        ([.getRegistryAddress env.l1chainID], .ok zeroAddress)

/-- The tail of `registerIdentity` once the settlement beneficiary is fixed:
submit the transaction (zero stake, nil fee, nil referral token, default chain
id); a failure is wrapped and propagated.  On success, if the default chain is
the l2 (settlement) chain, save the original beneficiary `benef` to the store —
a save failure is only logged — and finally mark the identity registered. -/
def submitAndFinish (env : Env) (st : RegisteredSet) (qe : QueuedEvent)
    (id : Identity) (benef settleBeneficiary : Address) : PipelineResult :=
  let c := Call.registerIdentity qe.event.providerID 0 none settleBeneficiary env.chainID none
  match env.registerIdentity qe.event.providerID 0 none settleBeneficiary env.chainID none with
  | some e =>
      { trace := [c], registered := st,
        err := some (.wrap "could not register identity on BC" e) }
  | none =>
      let saveTrace := if env.chainID = env.l2chainID then [Call.save id.address benef] else []
      { trace := [c] ++ saveTrace,
        registered := st.insert qe.event.providerID,
        err := none }

/-- Source: `registerIdentity`.  A zero beneficiary means manual registration:
done, no call, no error.  Otherwise, when the default chain is the l2
(settlement) chain the settlement beneficiary is the channel address resolved
for the identity — a resolution failure is fatal for the attempt — and
otherwise it is the raw beneficiary; then the transaction is submitted. -/
def registerIdentity (env : Env) (st : RegisteredSet) (qe : QueuedEvent)
    (id : Identity) (benef : Address) : PipelineResult :=
  if isZeroAddress benef then
    { trace := [], registered := st, err := none }
  else
    if env.chainID = env.l2chainID then
      match env.getChannelAddress env.chainID id with
      | .error e =>
          { trace := [.getChannelAddress env.chainID id], registered := st, err := some e }
      | .ok settleBeneficiary =>
          let r := submitAndFinish env st qe id benef settleBeneficiary
          { r with trace := [.getChannelAddress env.chainID id] ++ r.trace }
    else
      submitAndFinish env st qe id benef benef

/-- The part of `registerIdentityIfEligible` after the eligibility gate (the
code shared by the testnet3 path and the eligible path): the legacy-registry
beneficiary lookup — whose error propagates unchanged — followed by
`registerIdentity`. -/
def resolveAndRegister (env : Env) (st : RegisteredSet) (qe : QueuedEvent)
    (id : Identity) : PipelineResult :=
  match getBeneficiaryFromOldRegistry env id with
  | (tr, .error e) => { trace := tr, registered := st, err := some e }
  | (tr, .ok benef) =>
      let r := registerIdentity env st qe id benef
      { r with trace := tr ++ r.trace }

/-- Source: `registerIdentityIfEligible`.  Unless the registrar is configured
for testnet3, the bounty-eligibility check runs first: its error is wrapped and
propagated; an ineligible verdict ends the pipeline with no error.  Otherwise
(and always on testnet3) the legacy lookup and registration follow. -/
def registerIdentityIfEligible (env : Env) (cfg : ProviderRegistrarConfig)
    (st : RegisteredSet) (qe : QueuedEvent) : PipelineResult :=
  let id := Identity.fromAddress qe.event.providerID
  if cfg.isTestnet3 then
    resolveAndRegister env st qe id
  else
    match env.checkIfRegistrationBountyEligible id with
    | .error e =>
        { trace := [.checkIfRegistrationBountyEligible id], registered := st,
          err := some (.wrap "could not check eligibility for auto-registration" e) }
    | .ok eligible =>
        if eligible then
          let r := resolveAndRegister env st qe id
          { r with trace := [.checkIfRegistrationBountyEligible id] ++ r.trace }
        else
          { trace := [.checkIfRegistrationBountyEligible id], registered := st, err := none }

/-- Source: `handleEvent`.  Queries the registration status on the default
chain: an error is wrapped and propagated; `Registered` caches the identity in
the known-registered set and ends the pipeline; anything else continues with
`registerIdentityIfEligible`. -/
def handleEvent (env : Env) (cfg : ProviderRegistrarConfig)
    (st : RegisteredSet) (qe : QueuedEvent) : PipelineResult :=
  let id := Identity.fromAddress qe.event.providerID
  let c := Call.getRegistrationStatus env.chainID id
  match env.getRegistrationStatus env.chainID id with
  | .error e =>
      { trace := [c], registered := st,
        err := some (.wrap "could not check registration status on BC" e) }
  | .ok .Registered =>
      { trace := [c], registered := st.insert qe.event.providerID, err := none }
  | .ok .NotRegistered =>
      let r := registerIdentityIfEligible env cfg st qe
      { r with trace := [c] ++ r.trace }

/-- Source: `needsHandling` — the admission filter.  Rejects an event whose
status is not the "Running" value, and an event whose identity is already in
the known-registered set. -/
def needsHandling (st : RegisteredSet) (qe : QueuedEvent) : Bool :=
  if qe.event.status ≠ runningStatus then
    false
  else if qe.event.providerID ∈ st then
    false
  else
    true

/-- Result of `handleEventWithRetries`: calls made, updated set, the event
scheduled for delayed re-enqueue (if any), and the error returned to the
worker loop. -/
structure RetryResult where
  trace : List Call
  registered : RegisteredSet
  requeued : Option QueuedEvent
  err : Option GoError
deriving DecidableEq, Repr

/-- Source: `handleEventWithRetries`.  A pipeline success returns nil.  On a
pipeline error: if the event's retry count is still below `MaxRetries`, the
count is bumped and a delayed re-enqueue is scheduled (`go pr.delayedRequeue`),
returning nil so the worker continues; otherwise the error is wrapped with the
max-attempts context and returned. -/
def handleEventWithRetries (env : Env) (cfg : ProviderRegistrarConfig)
    (st : RegisteredSet) (qe : QueuedEvent) : RetryResult :=
  let res := handleEvent env cfg st qe
  match res.err with
  | none =>
      { trace := res.trace, registered := res.registered, requeued := none, err := none }
  | some e =>
      if (qe.retries : Int) < cfg.maxRetries then
        { trace := res.trace ++ [.scheduleRetry (qe.retries + 1)],
          registered := res.registered,
          requeued := some { qe with retries := qe.retries + 1 },
          err := none }
      else
        { trace := res.trace, registered := res.registered, requeued := none,
          err := some (.wrap "max attempts reached for provider registration" e) }

/-- Source: the worker loop in `start`, run over the sequence of events it
dequeues before shutdown (delayed re-enqueues feed the same queue, so a
requeued event that is delivered appears later in the sequence).  Each event
passes the admission filter, then the retrying pipeline; a non-nil error from
the latter terminates the loop at once and the remaining events are never
looked at. -/
def start (env : Env) (cfg : ProviderRegistrarConfig) :
    RegisteredSet → List QueuedEvent → PipelineResult
  | st, [] => { trace := [], registered := st, err := none }
  | st, qe :: rest =>
      if needsHandling st qe then
        let r := handleEventWithRetries env cfg st qe
        match r.err with
        | some e => { trace := r.trace, registered := r.registered, err := some e }
        | none =>
            let res := start env cfg r.registered rest
            { res with trace := r.trace ++ res.trace }
      else
        start env cfg st rest

/-- Driver for a single event's retry lifecycle: attempt `attempt` consults the
oracle family `envs attempt` (so an oracle may fail on early attempts and
succeed later), and a scheduled re-enqueue is delivered as the next attempt.
`fuel` bounds the recursion; the theorems instantiate it above the number of
attempts actually taken. -/
def runAttempts (envs : Nat → Env) (cfg : ProviderRegistrarConfig) :
    Nat → Nat → RegisteredSet → QueuedEvent → RetryResult
  | 0, _, st, _ => { trace := [], registered := st, requeued := none, err := none }
  | fuel + 1, attempt, st, qe =>
      let r := handleEventWithRetries (envs attempt) cfg st qe
      match r.requeued with
      | none => r
      | some qe' =>
          let res := runAttempts envs cfg fuel (attempt + 1) r.registered qe'
          { res with trace := r.trace ++ res.trace }

/-- State of the shutdown latch: whether `once sync.Once` has fired, and how
many `close(pr.stopChan)` effects have happened.  `sync.Once.Do` serializes
concurrent callers and runs the body only on the first call, so any
interleaving of `stop` invocations is equivalent to iterating this sequential
transition. -/
structure StopState where
  onceDone : Bool
  closeCount : Nat
deriving DecidableEq, Repr

/-- The latch before any `stop` call: the once has not fired, the channel has
never been closed. -/
def initialStopState : StopState := { onceDone := false, closeCount := 0 }

/-- Source: `stop` — `pr.once.Do(func() { close(pr.stopChan) })`. -/
def stop (s : StopState) : StopState :=
  if s.onceDone then s else { onceDone := true, closeCount := s.closeCount + 1 }

/-- Number of submission (`RegisterIdentity`) calls in a trace. -/
def countSubmissions (tr : List Call) : Nat :=
  tr.countP fun c => match c with
    | .registerIdentity _ _ _ _ _ _ => true
    | _ => false

/-- Number of bounty-eligibility calls in a trace. -/
def countEligibilityCalls (tr : List Call) : Nat :=
  tr.countP fun c => match c with
    | .checkIfRegistrationBountyEligible _ => true
    | _ => false

/-- Number of beneficiary-lookup calls (the legacy-registry migration lookup:
the registry-address read and the old-registry beneficiary read) in a trace. -/
def countBeneficiaryLookups (tr : List Call) : Nat :=
  tr.countP fun c => match c with
    | .getRegistryAddress _ => true
    | .getBeneficiary _ _ _ => true
    | _ => false

/-- Number of scheduled delayed re-enqueues in a trace. -/
def retriesScheduled (tr : List Call) : Nat :=
  tr.countP fun c => match c with
    | .scheduleRetry _ => true
    | _ => false

/-- The beneficiary addresses passed to submission calls, in order. -/
def submittedBeneficiaries (tr : List Call) : List Address :=
  tr.filterMap fun c => match c with
    | .registerIdentity _ _ _ benef _ _ => some benef
    | _ => none

/-- The (identity, beneficiary) pairs passed to beneficiary-store saves, in order. -/
def savedPairs (tr : List Call) : List (String × Address) :=
  tr.filterMap fun c => match c with
    | .save i b => some (i, b)
    | _ => none

/-- A concrete non-zero beneficiary address used by the concrete scenarios. -/
def benefB : Address := ⟨List.replicate 19 0 ++ [1]⟩

/-- A concrete channel address, distinct from `benefB`, used by the concrete
scenarios. -/
def chanC : Address := ⟨List.replicate 19 0 ++ [2]⟩

/-- A concrete Running service event. -/
def sampleEvent : AppEventServiceStatus := { status := "Running", providerID := "0xP1" }

/-- The identity of `sampleEvent`. -/
def sampleId : Identity := Identity.fromAddress "0xP1"

/-- A concrete queued event with a fresh retry count. -/
def sampleQe : QueuedEvent := { event := sampleEvent, retries := 0 }

/-- A concrete service event whose status is not the Running value. -/
def stoppedQe : QueuedEvent :=
  { event := { status := "NotRunning", providerID := "0xP1" }, retries := 0 }

/-- A concrete configuration: mainnet mode, no retries. -/
def baseCfg : ProviderRegistrarConfig :=
  { isTestnet3 := false, maxRetries := 0, delayBetweenRetries := 1 }

/-- A concrete environment in which every oracle succeeds: the identity is not
yet registered, it is bounty eligible, the legacy registry address matches the
new-registry constant, the old registry reports beneficiary `benefB`, the
channel address resolves to `chanC`, and the default chain (137) is the l2
settlement chain. -/
def baseEnv : Env :=
  { getRegistrationStatus := fun _ _ => .ok .NotRegistered
    checkIfRegistrationBountyEligible := fun _ => .ok true
    registerIdentity := fun _ _ _ _ _ _ => none
    getRegistryAddress := fun _ => .ok newRegistryAddress
    getChannelAddress := fun _ _ => .ok chanC
    getBeneficiary := fun _ _ _ => (benefB, none)
    save := fun _ _ => none
    chainID := 137
    l1chainID := 1
    l2chainID := 137 }

/-- Variant of `baseEnv` whose status check reports Registered. -/
def registeredEnv : Env :=
  { baseEnv with getRegistrationStatus := fun _ _ => .ok .Registered }

/-- C3: for every admitted event whose status check on the default chain
returns Registered, the pipeline makes no eligibility check, no beneficiary
lookup and no submission call, adds the identity to the known-registered set,
and returns without error. -/
theorem C3_registered_short_circuit (env : Env) (cfg : ProviderRegistrarConfig)
    (st : RegisteredSet) (qe : QueuedEvent)
    (h : env.getRegistrationStatus env.chainID (Identity.fromAddress qe.event.providerID) =
      .ok .Registered) :
    countEligibilityCalls (handleEvent env cfg st qe).trace = 0 ∧
    countBeneficiaryLookups (handleEvent env cfg st qe).trace = 0 ∧
    countSubmissions (handleEvent env cfg st qe).trace = 0 ∧
    (handleEvent env cfg st qe).registered = st.insert qe.event.providerID ∧
    (handleEvent env cfg st qe).err = none := by
  simp [handleEvent, h, countEligibilityCalls, countBeneficiaryLookups, countSubmissions,
    List.countP_cons, List.countP_nil]

/-- Witness for C3, at a concrete environment and event. -/
theorem C3_registered_short_circuit_witness :
    countEligibilityCalls (handleEvent registeredEnv baseCfg [] sampleQe).trace = 0 ∧
    countBeneficiaryLookups (handleEvent registeredEnv baseCfg [] sampleQe).trace = 0 ∧
    countSubmissions (handleEvent registeredEnv baseCfg [] sampleQe).trace = 0 ∧
    (handleEvent registeredEnv baseCfg [] sampleQe).registered =
      List.insert sampleQe.event.providerID [] ∧
    (handleEvent registeredEnv baseCfg [] sampleQe).err = none :=
  C3_registered_short_circuit registeredEnv baseCfg [] sampleQe rfl

/-- C4: the admission filter rejects a dequeued event exactly when its status
is not the "Running" value or its identity is already in the known-registered
set, and a rejected event is skipped by the worker loop before any chain call
is made: the run of the queue with the rejected event at its head equals the
run of the remaining events. -/
theorem C4_admission_filter (env : Env) (cfg : ProviderRegistrarConfig)
    (st : RegisteredSet) (qe : QueuedEvent) (rest : List QueuedEvent) :
    (needsHandling st qe = false ↔
      (qe.event.status ≠ runningStatus ∨ qe.event.providerID ∈ st)) ∧
    (needsHandling st qe = false →
      start env cfg st (qe :: rest) = start env cfg st rest) := by
  constructor
  · unfold needsHandling
    split_ifs with h1 h2 <;> simp_all
  · intro h
    simp [start, h]

/-- Witness for C4: a non-Running event is rejected and contributes nothing to
the worker run. -/
theorem C4_admission_filter_witness :
    start baseEnv baseCfg [] (stoppedQe :: [sampleQe]) = start baseEnv baseCfg [] [sampleQe] :=
  (C4_admission_filter baseEnv baseCfg [] stoppedQe [sampleQe]).2 (by decide)

/-- C6: a registration attempt whose resolved beneficiary is the zero/sentinel
address makes no submission call and ends without error — the
manual-registration terminal outcome. -/
theorem C6_zero_beneficiary_manual (env : Env) (st : RegisteredSet)
    (qe : QueuedEvent) (id : Identity) (benef : Address)
    (h : isZeroAddress benef = true) :
    countSubmissions (registerIdentity env st qe id benef).trace = 0 ∧
    (registerIdentity env st qe id benef).err = none := by
  simp [registerIdentity, h, countSubmissions]

/-- Witness for C6, at the zero address itself. -/
theorem C6_zero_beneficiary_manual_witness :
    countSubmissions (registerIdentity baseEnv [] sampleQe sampleId zeroAddress).trace = 0 ∧
    (registerIdentity baseEnv [] sampleQe sampleId zeroAddress).err = none :=
  C6_zero_beneficiary_manual baseEnv [] sampleQe sampleId zeroAddress rfl

/-- Every call in the migration lookup's trace is a registry-address read or a
beneficiary read, so a predicate false on those is false throughout. -/
lemma trace_getBeneficiaryFromOldRegistry_false (p : Call → Bool) (env : Env) (id : Identity)
    (h0 : ∀ c, p (Call.getRegistryAddress c) = false)
    (h1 : ∀ c r i, p (Call.getBeneficiary c r i) = false) :
    ∀ c ∈ (getBeneficiaryFromOldRegistry env id).1, p c = false := by
  cases h : env.getRegistryAddress env.l1chainID with
  | error e => simp [getBeneficiaryFromOldRegistry, h, h0]
  | ok a =>
      by_cases ha : a = newRegistryAddress <;>
        simp [getBeneficiaryFromOldRegistry, h, ha, h0, h1]

/-- Every call in the submission tail's trace is a submission or a save. -/
lemma trace_submitAndFinish_false (p : Call → Bool) (env : Env) (st : RegisteredSet)
    (qe : QueuedEvent) (id : Identity) (benef sb : Address)
    (h3 : ∀ i s f b c r, p (Call.registerIdentity i s f b c r) = false)
    (h4 : ∀ i b, p (Call.save i b) = false) :
    ∀ c ∈ (submitAndFinish env st qe id benef sb).trace, p c = false := by
  cases h : env.registerIdentity qe.event.providerID 0 none sb env.chainID none with
  | some e => simp [submitAndFinish, h, h3]
  | none =>
      by_cases hc : env.chainID = env.l2chainID
      · rw [hc] at h
        simp [submitAndFinish, h, hc, h3, h4]
      · simp [submitAndFinish, h, hc, h3, h4]

/-- Every call in the registration step's trace is a channel-address read, a
submission or a save. -/
lemma trace_registerIdentity_false (p : Call → Bool) (env : Env) (st : RegisteredSet)
    (qe : QueuedEvent) (id : Identity) (benef : Address)
    (h2 : ∀ c i, p (Call.getChannelAddress c i) = false)
    (h3 : ∀ i s f b c r, p (Call.registerIdentity i s f b c r) = false)
    (h4 : ∀ i b, p (Call.save i b) = false) :
    ∀ c ∈ (registerIdentity env st qe id benef).trace, p c = false := by
  by_cases hz : isZeroAddress benef = true
  · simp [registerIdentity, hz]
  · by_cases hc : env.chainID = env.l2chainID
    · cases h : env.getChannelAddress env.chainID id with
      | error e =>
          rw [hc] at h
          simp [registerIdentity, hz, hc, h, h2]
      | ok sb =>
          rw [hc] at h
          intro c hm
          simp [registerIdentity, hz, hc, h] at hm
          rcases hm with rfl | hm
          · exact h2 _ _
          · exact trace_submitAndFinish_false p env st qe id benef sb h3 h4 c hm
    · intro c hm
      simp [registerIdentity, hz, hc] at hm
      exact trace_submitAndFinish_false p env st qe id benef benef h3 h4 c hm

/-- Every call in the post-eligibility continuation's trace is a lookup call,
a channel-address read, a submission or a save. -/
lemma trace_resolveAndRegister_false (p : Call → Bool) (env : Env) (st : RegisteredSet)
    (qe : QueuedEvent) (id : Identity)
    (h0 : ∀ c, p (Call.getRegistryAddress c) = false)
    (h1 : ∀ c r i, p (Call.getBeneficiary c r i) = false)
    (h2 : ∀ c i, p (Call.getChannelAddress c i) = false)
    (h3 : ∀ i s f b c r, p (Call.registerIdentity i s f b c r) = false)
    (h4 : ∀ i b, p (Call.save i b) = false) :
    ∀ c ∈ (resolveAndRegister env st qe id).trace, p c = false := by
  cases h : getBeneficiaryFromOldRegistry env id with
  | mk tr r =>
      have htr : ∀ c ∈ tr, p c = false := by
        have hh := trace_getBeneficiaryFromOldRegistry_false p env id h0 h1
        rw [h] at hh
        exact hh
      cases r with
      | error e =>
          intro c hm
          simp [resolveAndRegister, h] at hm
          exact htr c hm
      | ok benef =>
          intro c hm
          simp [resolveAndRegister, h] at hm
          rcases hm with hm | hm
          · exact htr c hm
          · exact trace_registerIdentity_false p env st qe id benef h2 h3 h4 c hm

/-- Every call in the eligibility-gated pipeline's trace is an eligibility
check or a continuation call. -/
lemma trace_registerIdentityIfEligible_false (p : Call → Bool) (env : Env)
    (cfg : ProviderRegistrarConfig) (st : RegisteredSet) (qe : QueuedEvent)
    (hel : ∀ i, p (Call.checkIfRegistrationBountyEligible i) = false)
    (h0 : ∀ c, p (Call.getRegistryAddress c) = false)
    (h1 : ∀ c r i, p (Call.getBeneficiary c r i) = false)
    (h2 : ∀ c i, p (Call.getChannelAddress c i) = false)
    (h3 : ∀ i s f b c r, p (Call.registerIdentity i s f b c r) = false)
    (h4 : ∀ i b, p (Call.save i b) = false) :
    ∀ c ∈ (registerIdentityIfEligible env cfg st qe).trace, p c = false := by
  by_cases ht : cfg.isTestnet3 = true
  · intro c hm
    simp [registerIdentityIfEligible, ht] at hm
    exact trace_resolveAndRegister_false p env st qe _ h0 h1 h2 h3 h4 c hm
  · cases hce : env.checkIfRegistrationBountyEligible (Identity.fromAddress qe.event.providerID) with
    | error e => simp [registerIdentityIfEligible, ht, hce, hel]
    | ok elig =>
        cases elig
        · simp [registerIdentityIfEligible, ht, hce, hel]
        · intro c hm
          simp [registerIdentityIfEligible, ht, hce] at hm
          rcases hm with rfl | hm
          · exact hel _
          · exact trace_resolveAndRegister_false p env st qe _ h0 h1 h2 h3 h4 c hm

/-- Every call in a whole pipeline trace is one of the seven external-call
kinds; in particular the pipeline never emits a retry-scheduling effect. -/
lemma trace_handleEvent_false (p : Call → Bool) (env : Env)
    (cfg : ProviderRegistrarConfig) (st : RegisteredSet) (qe : QueuedEvent)
    (hrs : ∀ c i, p (Call.getRegistrationStatus c i) = false)
    (hel : ∀ i, p (Call.checkIfRegistrationBountyEligible i) = false)
    (h0 : ∀ c, p (Call.getRegistryAddress c) = false)
    (h1 : ∀ c r i, p (Call.getBeneficiary c r i) = false)
    (h2 : ∀ c i, p (Call.getChannelAddress c i) = false)
    (h3 : ∀ i s f b c r, p (Call.registerIdentity i s f b c r) = false)
    (h4 : ∀ i b, p (Call.save i b) = false) :
    ∀ c ∈ (handleEvent env cfg st qe).trace, p c = false := by
  cases h : env.getRegistrationStatus env.chainID (Identity.fromAddress qe.event.providerID) with
  | error e => simp [handleEvent, h, hrs]
  | ok s =>
      cases s
      · simp [handleEvent, h, hrs]
      · intro c hm
        simp [handleEvent, h] at hm
        rcases hm with rfl | hm
        · exact hrs _ _
        · exact trace_registerIdentityIfEligible_false p env cfg st qe hel h0 h1 h2 h3 h4 c hm

/-- The pipeline itself never schedules a retry: only `handleEventWithRetries`
emits `scheduleRetry`. -/
lemma retriesScheduled_handleEvent (env : Env) (cfg : ProviderRegistrarConfig)
    (st : RegisteredSet) (qe : QueuedEvent) :
    retriesScheduled (handleEvent env cfg st qe).trace = 0 := by
  have h := trace_handleEvent_false
    (fun c => match c with | .scheduleRetry _ => true | _ => false) env cfg st qe
    (fun _ _ => rfl) (fun _ => rfl) (fun _ => rfl) (fun _ _ _ => rfl)
    (fun _ _ => rfl) (fun _ _ _ _ _ _ => rfl) (fun _ _ => rfl)
  unfold retriesScheduled
  rw [List.countP_eq_zero]
  intro a ha
  simp [h a ha]

/-- The post-eligibility continuation never makes an eligibility call. -/
lemma countEligibilityCalls_resolveAndRegister (env : Env) (st : RegisteredSet)
    (qe : QueuedEvent) (id : Identity) :
    countEligibilityCalls (resolveAndRegister env st qe id).trace = 0 := by
  have h := trace_resolveAndRegister_false
    (fun c => match c with | .checkIfRegistrationBountyEligible _ => true | _ => false)
    env st qe id (fun _ => rfl) (fun _ _ _ => rfl) (fun _ _ => rfl)
    (fun _ _ _ _ _ _ => rfl) (fun _ _ => rfl)
  unfold countEligibilityCalls
  rw [List.countP_eq_zero]
  intro a ha
  simp [h a ha]

/-- Scheduled-retry counting distributes over trace concatenation. -/
lemma retriesScheduled_append (a b : List Call) :
    retriesScheduled (a ++ b) = retriesScheduled a + retriesScheduled b := by
  simp [retriesScheduled, List.countP_append]

/-- A failing submission tail leaves the known-registered set unchanged. -/
lemma submitAndFinish_error_keeps (env : Env) (st : RegisteredSet)
    (qe : QueuedEvent) (id : Identity) (benef sb : Address)
    (h : (submitAndFinish env st qe id benef sb).err.isSome = true) :
    (submitAndFinish env st qe id benef sb).registered = st := by
  cases hs : env.registerIdentity qe.event.providerID 0 none sb env.chainID none with
  | some e => simp [submitAndFinish, hs]
  | none => simp [submitAndFinish, hs] at h

/-- A failing registration step leaves the known-registered set unchanged. -/
lemma registerIdentity_error_keeps (env : Env) (st : RegisteredSet)
    (qe : QueuedEvent) (id : Identity) (benef : Address)
    (h : (registerIdentity env st qe id benef).err.isSome = true) :
    (registerIdentity env st qe id benef).registered = st := by
  by_cases hz : isZeroAddress benef = true
  · simp [registerIdentity, hz] at h
  · by_cases hc : env.chainID = env.l2chainID
    · cases hch : env.getChannelAddress env.chainID id with
      | error e =>
          rw [hc] at hch
          simp [registerIdentity, hz, hc, hch]
      | ok sb =>
          rw [hc] at hch
          simp [registerIdentity, hz, hc, hch] at h ⊢
          exact submitAndFinish_error_keeps env st qe id benef sb h
    · simp [registerIdentity, hz, hc] at h ⊢
      exact submitAndFinish_error_keeps env st qe id benef benef h

/-- A failing post-eligibility continuation leaves the known-registered set
unchanged. -/
lemma resolveAndRegister_error_keeps (env : Env) (st : RegisteredSet)
    (qe : QueuedEvent) (id : Identity)
    (h : (resolveAndRegister env st qe id).err.isSome = true) :
    (resolveAndRegister env st qe id).registered = st := by
  cases hra : env.getRegistryAddress env.l1chainID with
  | error e => simp [resolveAndRegister, getBeneficiaryFromOldRegistry, hra]
  | ok a =>
      by_cases ha : a = newRegistryAddress <;>
        · simp [resolveAndRegister, getBeneficiaryFromOldRegistry, hra, ha] at h ⊢
          exact registerIdentity_error_keeps env st qe id _ h

/-- A failing eligibility-gated pipeline leaves the known-registered set
unchanged. -/
lemma registerIdentityIfEligible_error_keeps (env : Env)
    (cfg : ProviderRegistrarConfig) (st : RegisteredSet) (qe : QueuedEvent)
    (h : (registerIdentityIfEligible env cfg st qe).err.isSome = true) :
    (registerIdentityIfEligible env cfg st qe).registered = st := by
  by_cases ht : cfg.isTestnet3 = true
  · simp [registerIdentityIfEligible, ht] at h ⊢
    exact resolveAndRegister_error_keeps env st qe _ h
  · cases hce : env.checkIfRegistrationBountyEligible (Identity.fromAddress qe.event.providerID) with
    | error e => simp [registerIdentityIfEligible, ht, hce]
    | ok elig =>
        cases elig
        · simp [registerIdentityIfEligible, ht, hce]
        · simp [registerIdentityIfEligible, ht, hce] at h ⊢
          exact resolveAndRegister_error_keeps env st qe _ h

/-- A failing pipeline leaves the known-registered set unchanged: the set is
only written on the two success paths. -/
lemma handleEvent_error_keeps (env : Env) (cfg : ProviderRegistrarConfig)
    (st : RegisteredSet) (qe : QueuedEvent)
    (h : (handleEvent env cfg st qe).err.isSome = true) :
    (handleEvent env cfg st qe).registered = st := by
  cases hrs : env.getRegistrationStatus env.chainID (Identity.fromAddress qe.event.providerID) with
  | error e => simp [handleEvent, hrs]
  | ok s =>
      cases s
      · simp [handleEvent, hrs] at h
      · simp [handleEvent, hrs] at h ⊢
        exact registerIdentityIfEligible_error_keeps env cfg st qe h

/-- C5: on the settlement chain (default chain id = l2 chain id) with a
non-zero resolved beneficiary B: a channel-address resolution error is fatal
for the attempt — it propagates and no submission call is made; on successful
resolution to C the (single) submission call receives C, not B; and after a
successful submission the Beneficiary Store receives Save(identity, B) — the
original B, not C. -/
theorem C5_settlement_chain_uses_channel_address (env : Env) (st : RegisteredSet)
    (qe : QueuedEvent) (id : Identity) (benef : Address)
    (hnz : isZeroAddress benef = false)
    (hl2 : env.chainID = env.l2chainID) :
    (∀ e, env.getChannelAddress env.chainID id = .error e →
      (registerIdentity env st qe id benef).err = some e ∧
      countSubmissions (registerIdentity env st qe id benef).trace = 0) ∧
    (∀ C, env.getChannelAddress env.chainID id = .ok C →
      submittedBeneficiaries (registerIdentity env st qe id benef).trace = [C] ∧
      (env.registerIdentity qe.event.providerID 0 none C env.chainID none = none →
        savedPairs (registerIdentity env st qe id benef).trace = [(id.address, benef)])) := by
  constructor
  · intro e he
    rw [hl2] at he
    constructor <;>
      simp [registerIdentity, hnz, hl2, he, countSubmissions,
        List.countP_cons, List.countP_nil]
  · intro C hC
    rw [hl2] at hC
    constructor
    · cases hsub : env.registerIdentity qe.event.providerID 0 none C env.l2chainID none with
      | none =>
          simp [registerIdentity, hnz, hl2, hC, submitAndFinish, hsub, submittedBeneficiaries,
            List.filterMap_cons, List.filterMap_nil, List.filterMap_append]
      | some e2 =>
          simp [registerIdentity, hnz, hl2, hC, submitAndFinish, hsub, submittedBeneficiaries,
            List.filterMap_cons, List.filterMap_nil, List.filterMap_append]
    · intro hok
      rw [hl2] at hok
      simp [registerIdentity, hnz, hl2, hC, submitAndFinish, hok, savedPairs,
        List.filterMap_cons, List.filterMap_nil, List.filterMap_append]

/-- Witness for C5: with beneficiary `benefB` and channel address `chanC` on
the settlement chain, submission receives `chanC` and the store receives the
original `benefB`. -/
theorem C5_settlement_chain_uses_channel_address_witness :
    submittedBeneficiaries (registerIdentity baseEnv [] sampleQe sampleId benefB).trace = [chanC] ∧
    savedPairs (registerIdentity baseEnv [] sampleQe sampleId benefB).trace =
      [(sampleId.address, benefB)] := by
  have h := C5_settlement_chain_uses_channel_address baseEnv [] sampleQe sampleId benefB rfl rfl
  exact ⟨(h.2 chanC rfl).1, (h.2 chanC rfl).2 rfl⟩

/-- C7: in legacy test-network (testnet3) mode the eligibility check is skipped
entirely — the pipeline is exactly the post-eligibility continuation and makes
no eligibility call; otherwise an ineligible verdict ends the pipeline with no
beneficiary lookup, no submission call and no error. -/
theorem C7_eligibility_gate (env : Env) (cfg : ProviderRegistrarConfig)
    (st : RegisteredSet) (qe : QueuedEvent) :
    (cfg.isTestnet3 = true →
      registerIdentityIfEligible env cfg st qe =
        resolveAndRegister env st qe (Identity.fromAddress qe.event.providerID) ∧
      countEligibilityCalls (registerIdentityIfEligible env cfg st qe).trace = 0) ∧
    (cfg.isTestnet3 = false →
      env.checkIfRegistrationBountyEligible (Identity.fromAddress qe.event.providerID) =
          .ok false →
      countBeneficiaryLookups (registerIdentityIfEligible env cfg st qe).trace = 0 ∧
      countSubmissions (registerIdentityIfEligible env cfg st qe).trace = 0 ∧
      (registerIdentityIfEligible env cfg st qe).err = none) := by
  constructor
  · intro ht
    have heq : registerIdentityIfEligible env cfg st qe =
        resolveAndRegister env st qe (Identity.fromAddress qe.event.providerID) := by
      simp [registerIdentityIfEligible, ht]
    refine ⟨heq, ?_⟩
    rw [heq]
    exact countEligibilityCalls_resolveAndRegister env st qe _
  · intro ht hce
    simp [registerIdentityIfEligible, ht, hce, countBeneficiaryLookups, countSubmissions,
      List.countP_cons, List.countP_nil]

/-- Variant of `baseEnv` that reports the identity ineligible for the bounty. -/
def ineligibleEnv : Env :=
  { baseEnv with checkIfRegistrationBountyEligible := fun _ => .ok false }

/-- A concrete testnet3 configuration. -/
def tnCfg : ProviderRegistrarConfig :=
  { isTestnet3 := true, maxRetries := 0, delayBetweenRetries := 1 }

/-- Witness for C7, at a testnet3 run and at an ineligible mainnet run. -/
theorem C7_eligibility_gate_witness :
    (registerIdentityIfEligible baseEnv tnCfg [] sampleQe =
        resolveAndRegister baseEnv [] sampleQe (Identity.fromAddress sampleQe.event.providerID) ∧
      countEligibilityCalls (registerIdentityIfEligible baseEnv tnCfg [] sampleQe).trace = 0) ∧
    (countBeneficiaryLookups (registerIdentityIfEligible ineligibleEnv baseCfg [] sampleQe).trace = 0 ∧
      countSubmissions (registerIdentityIfEligible ineligibleEnv baseCfg [] sampleQe).trace = 0 ∧
      (registerIdentityIfEligible ineligibleEnv baseCfg [] sampleQe).err = none) :=
  ⟨(C7_eligibility_gate baseEnv tnCfg [] sampleQe).1 rfl,
   (C7_eligibility_gate ineligibleEnv baseCfg [] sampleQe).2 rfl rfl⟩

/-- The sentinel address satisfies the zero test. -/
lemma isZeroAddress_zeroAddress : isZeroAddress zeroAddress = true := rfl

/-- Variant of `baseEnv` whose old-registry beneficiary read fails while
returning a non-zero address value alongside the error — the Go pair signature
permits this; the convention is to return the zero value, but nothing in the
orchestrator enforces it. -/
def benefErrEnv : Env :=
  { baseEnv with getBeneficiary := fun _ _ _ => (benefB, some (.msg "bc read failed")) }

/-- Variant of `baseEnv` whose old-registry beneficiary read fails returning
the zero value, the conventional Go behaviour. -/
def benefZeroErrEnv : Env :=
  { baseEnv with getBeneficiary := fun _ _ _ => (zeroAddress, some (.msg "bc read failed")) }

/-- Counterexample to C1 as stated: in an environment whose old-registry
beneficiary read returns an error together with the non-zero address `benefB`,
the pipeline does not continue "with the zero/sentinel beneficiary as if none
were found" — it continues with `benefB`, reaches submission (one submission
call, carrying the channel address), and still ends without error.  The code
returns the read's address component unchanged after logging the error, so the
zero-beneficiary terminal outcome is not guaranteed by an error alone. -/
theorem C1_counterexample :
    (benefErrEnv.getBeneficiary 5 oldRegistryAddress sampleId).2 = some (.msg "bc read failed") ∧
    (registerIdentityIfEligible benefErrEnv baseCfg [] sampleQe).err = none ∧
    submittedBeneficiaries (registerIdentityIfEligible benefErrEnv baseCfg [] sampleQe).trace =
      [chanC] ∧
    countSubmissions (registerIdentityIfEligible benefErrEnv baseCfg [] sampleQe).trace = 1 := by
  refine ⟨rfl, rfl, rfl, rfl⟩

/-- C1 (amended): a failing legacy beneficiary read never propagates its error
out of the migration lookup — the lookup returns, error-free, whatever address
value the read produced alongside the error; when that value is the
zero/sentinel address (the conventional behaviour of a failing Go call), the
pipeline ends without error and without a submission call. -/
theorem C1_legacy_beneficiary_error_swallowed (env : Env) (cfg : ProviderRegistrarConfig)
    (st : RegisteredSet) (qe : QueuedEvent) (e : GoError)
    (helig : cfg.isTestnet3 = true ∨
      env.checkIfRegistrationBountyEligible (Identity.fromAddress qe.event.providerID) = .ok true)
    (hreg : env.getRegistryAddress env.l1chainID = .ok newRegistryAddress)
    (_hbe : (env.getBeneficiary 5 oldRegistryAddress (Identity.fromAddress qe.event.providerID)).2 =
      some e) :
    (getBeneficiaryFromOldRegistry env (Identity.fromAddress qe.event.providerID)).2 =
      .ok (env.getBeneficiary 5 oldRegistryAddress (Identity.fromAddress qe.event.providerID)).1 ∧
    ((env.getBeneficiary 5 oldRegistryAddress (Identity.fromAddress qe.event.providerID)).1 =
        zeroAddress →
      (registerIdentityIfEligible env cfg st qe).err = none ∧
      countSubmissions (registerIdentityIfEligible env cfg st qe).trace = 0) := by
  constructor
  · simp [getBeneficiaryFromOldRegistry, hreg]
  · intro hz
    have hrr : (resolveAndRegister env st qe (Identity.fromAddress qe.event.providerID)).err =
          none ∧
        countSubmissions
          (resolveAndRegister env st qe (Identity.fromAddress qe.event.providerID)).trace = 0 := by
      constructor <;>
        simp [resolveAndRegister, getBeneficiaryFromOldRegistry, hreg, hz, registerIdentity,
          isZeroAddress_zeroAddress, countSubmissions, List.countP_cons, List.countP_nil]
    by_cases ht : cfg.isTestnet3 = true
    · have heq : registerIdentityIfEligible env cfg st qe =
          resolveAndRegister env st qe (Identity.fromAddress qe.event.providerID) := by
        simp [registerIdentityIfEligible, ht]
      rw [heq]
      exact hrr
    · have hel := helig.resolve_left ht
      constructor
      · simpa [registerIdentityIfEligible, ht, hel] using hrr.1
      · have h2 := hrr.2
        simp only [countSubmissions] at h2 ⊢
        simp [registerIdentityIfEligible, ht, hel, List.countP_cons, h2]

/-- Witness for the amended C1: the beneficiary read fails returning the zero
value; the lookup swallows the error and the pipeline ends with no error and
no submission call. -/
theorem C1_legacy_beneficiary_error_swallowed_witness :
    (getBeneficiaryFromOldRegistry benefZeroErrEnv sampleId).2 =
      .ok (benefZeroErrEnv.getBeneficiary 5 oldRegistryAddress sampleId).1 ∧
    (registerIdentityIfEligible benefZeroErrEnv baseCfg [] sampleQe).err = none ∧
    countSubmissions (registerIdentityIfEligible benefZeroErrEnv baseCfg [] sampleQe).trace = 0 := by
  have h := C1_legacy_beneficiary_error_swallowed benefZeroErrEnv baseCfg [] sampleQe
    (.msg "bc read failed") (Or.inr rfl) rfl rfl
  exact ⟨h.1, (h.2 rfl).1, (h.2 rfl).2⟩

/-- C2: when the pipeline fails for an event whose retry count has already
reached the configured maximum, the error is returned wrapped with the
max-attempts context (the literal "max attempts reached for provider
registration", which carries the claimed "max attempts reached" wording), and
this terminates the worker loop: the run of the whole queue equals the run
that stops at this event, so no later queued event is processed.  With max
retries = 0 this applies to any single failure. -/
theorem C2_max_retries_fatal (env : Env) (cfg : ProviderRegistrarConfig)
    (st : RegisteredSet) (qe : QueuedEvent) (rest : List QueuedEvent) (e : GoError)
    (hneed : needsHandling st qe = true)
    (herr : (handleEvent env cfg st qe).err = some e)
    (hmax : ¬ ((qe.retries : Int) < cfg.maxRetries)) :
    (start env cfg st (qe :: rest)).err =
      some (.wrap "max attempts reached for provider registration" e) ∧
    start env cfg st (qe :: rest) = start env cfg st [qe] := by
  have hr : (handleEventWithRetries env cfg st qe).err =
      some (.wrap "max attempts reached for provider registration" e) := by
    simp [handleEventWithRetries, herr, hmax]
  constructor
  · simp [start, hneed, hr]
  · simp [start, hneed, hr]

/-- Variant of `baseEnv` whose status check fails. -/
def failStatusEnv : Env :=
  { baseEnv with getRegistrationStatus := fun _ _ => .error (.msg "rpc down") }

/-- Witness for C2: with max retries = 0 a single status-check failure is
wrapped fatally and the second queued event is never processed. -/
theorem C2_max_retries_fatal_witness :
    (start failStatusEnv baseCfg [] (sampleQe :: [sampleQe])).err =
      some (.wrap "max attempts reached for provider registration"
        (.wrap "could not check registration status on BC" (.msg "rpc down"))) ∧
    start failStatusEnv baseCfg [] (sampleQe :: [sampleQe]) =
      start failStatusEnv baseCfg [] [sampleQe] :=
  C2_max_retries_fatal failStatusEnv baseCfg [] sampleQe [sampleQe]
    (.wrap "could not check registration status on BC" (.msg "rpc down"))
    (by decide) rfl (by decide)

/-- C10 (implicit in the spec): a failure of the registry-address lookup for
the legacy chain propagates out of the pipeline — wrapped with its chain
context — and is counted against the retry budget like any other fatal
pipeline error: below the maximum a retry is scheduled, at the maximum the
max-attempts wrap is returned.  This is unlike the beneficiary read, whose
error is swallowed. -/
theorem C10_registry_address_error_propagates (env : Env) (cfg : ProviderRegistrarConfig)
    (st : RegisteredSet) (qe : QueuedEvent) (e : GoError)
    (hstatus : env.getRegistrationStatus env.chainID (Identity.fromAddress qe.event.providerID) =
      .ok .NotRegistered)
    (helig : cfg.isTestnet3 = true ∨
      env.checkIfRegistrationBountyEligible (Identity.fromAddress qe.event.providerID) = .ok true)
    (hreg : env.getRegistryAddress env.l1chainID = .error e) :
    (handleEvent env cfg st qe).err =
      some (.wrap ("could not get registry address for chain " ++ toString env.l1chainID) e) ∧
    (((qe.retries : Int) < cfg.maxRetries) →
      (handleEventWithRetries env cfg st qe).err = none ∧
      (handleEventWithRetries env cfg st qe).requeued =
        some { qe with retries := qe.retries + 1 }) ∧
    (¬ ((qe.retries : Int) < cfg.maxRetries) →
      (handleEventWithRetries env cfg st qe).err =
        some (.wrap "max attempts reached for provider registration"
          (.wrap ("could not get registry address for chain " ++ toString env.l1chainID) e))) := by
  have herr : (handleEvent env cfg st qe).err =
      some (.wrap ("could not get registry address for chain " ++ toString env.l1chainID) e) := by
    by_cases ht : cfg.isTestnet3 = true
    · simp [handleEvent, hstatus, registerIdentityIfEligible, ht, resolveAndRegister,
        getBeneficiaryFromOldRegistry, hreg]
    · have hel := helig.resolve_left ht
      simp [handleEvent, hstatus, registerIdentityIfEligible, ht, hel, resolveAndRegister,
        getBeneficiaryFromOldRegistry, hreg]
  refine ⟨herr, ?_, ?_⟩
  · intro hlt
    constructor <;> simp [handleEventWithRetries, herr, hlt]
  · intro hge
    simp [handleEventWithRetries, herr, hge]

/-- Variant of `baseEnv` whose registry-address lookup fails. -/
def regAddrErrEnv : Env :=
  { baseEnv with getRegistryAddress := fun _ => .error (.msg "registry lookup failed") }

/-- Witness for C10: with max retries = 0 the registry-address failure becomes
the fatal max-attempts error. -/
theorem C10_registry_address_error_propagates_witness :
    (handleEvent regAddrErrEnv baseCfg [] sampleQe).err =
      some (.wrap ("could not get registry address for chain " ++ toString regAddrErrEnv.l1chainID)
        (.msg "registry lookup failed")) ∧
    (handleEventWithRetries regAddrErrEnv baseCfg [] sampleQe).err =
      some (.wrap "max attempts reached for provider registration"
        (.wrap ("could not get registry address for chain " ++ toString regAddrErrEnv.l1chainID)
          (.msg "registry lookup failed"))) := by
  have h := C10_registry_address_error_propagates regAddrErrEnv baseCfg [] sampleQe
    (.msg "registry lookup failed") rfl (Or.inr rfl) rfl
  exact ⟨h.1, h.2.2 (by decide)⟩

/-- One-step unfolding of the retry driver. -/
lemma runAttempts_succ (envs : Nat → Env) (cfg : ProviderRegistrarConfig)
    (fuel attempt : Nat) (st : RegisteredSet) (qe : QueuedEvent) :
    runAttempts envs cfg (fuel + 1) attempt st qe =
      match (handleEventWithRetries (envs attempt) cfg st qe).requeued with
      | none => handleEventWithRetries (envs attempt) cfg st qe
      | some qe' =>
          { runAttempts envs cfg fuel (attempt + 1)
              (handleEventWithRetries (envs attempt) cfg st qe).registered qe' with
            trace := (handleEventWithRetries (envs attempt) cfg st qe).trace ++
              (runAttempts envs cfg fuel (attempt + 1)
                (handleEventWithRetries (envs attempt) cfg st qe).registered qe').trace } := rfl

/-- With max retries = N, a pipeline that fails on every attempt before N and
succeeds on attempt N: running from attempt N - d (with the matching retry
count and d + 1 fuel) ends with no error and schedules exactly d retries. -/
lemma runAttempts_fail_then_succeed (envs : Nat → Env) (cfg : ProviderRegistrarConfig)
    (st : RegisteredSet) (ev : AppEventServiceStatus) (N : Nat)
    (hmax : cfg.maxRetries = (N : Int))
    (hfail : ∀ i, i < N →
      ((handleEvent (envs i) cfg st { event := ev, retries := i }).err).isSome = true)
    (hsucc : (handleEvent (envs N) cfg st { event := ev, retries := N }).err = none) :
    ∀ d, d ≤ N →
      (runAttempts envs cfg (d + 1) (N - d) st { event := ev, retries := N - d }).err = none ∧
      retriesScheduled
        (runAttempts envs cfg (d + 1) (N - d) st { event := ev, retries := N - d }).trace = d := by
  intro d
  induction d with
  | zero =>
      intro _
      have hr : handleEventWithRetries (envs N) cfg st { event := ev, retries := N } =
          { trace := (handleEvent (envs N) cfg st { event := ev, retries := N }).trace,
            registered := (handleEvent (envs N) cfg st { event := ev, retries := N }).registered,
            requeued := none, err := none } := by
        simp [handleEventWithRetries, hsucc]
      simp [runAttempts_succ, hr, retriesScheduled_handleEvent]
  | succ d ih =>
      intro hdN
      have hk : N - (d + 1) < N := by omega
      have hk1 : N - (d + 1) + 1 = N - d := by omega
      obtain ⟨e, he⟩ := Option.isSome_iff_exists.mp (hfail (N - (d + 1)) hk)
      have hlt : ((N - (d + 1) : Nat) : Int) < cfg.maxRetries := by
        rw [hmax]
        exact_mod_cast hk
      have hkeep := handleEvent_error_keeps (envs (N - (d + 1))) cfg st
        { event := ev, retries := N - (d + 1) } (by rw [he]; rfl)
      have hr : handleEventWithRetries (envs (N - (d + 1))) cfg st
          { event := ev, retries := N - (d + 1) } =
          { trace := (handleEvent (envs (N - (d + 1))) cfg st
                { event := ev, retries := N - (d + 1) }).trace ++
              [.scheduleRetry (N - (d + 1) + 1)],
            registered := st,
            requeued := some { event := ev, retries := N - (d + 1) + 1 },
            err := none } := by
        simp [handleEventWithRetries, he, hlt, hkeep]
      have ihd := ih (by omega)
      rw [hk1] at hr
      constructor
      · rw [runAttempts_succ, hr]
        simp only [hk1]
        simpa using ihd.1
      · rw [runAttempts_succ, hr]
        simp only [hk1]
        have h1 := retriesScheduled_handleEvent (envs (N - (d + 1))) cfg st
          { event := ev, retries := N - (d + 1) }
        have h2 := ihd.2
        simp only [retriesScheduled] at h1 h2
        simp [retriesScheduled, h1, h2]

/-- C8: a pipeline failure for an event whose retry count is strictly below
the configured maximum bumps the count, schedules exactly one delayed
re-enqueue and surfaces no error from that attempt; consequently, with max
retries = N and a pipeline that fails on the first N attempts and succeeds on
attempt N, the full run schedules exactly N retries and ends with no error
surfaced. -/
theorem C8_bounded_retry (env : Env) (cfg : ProviderRegistrarConfig) (st : RegisteredSet)
    (qe : QueuedEvent) (e : GoError) (envs : Nat → Env) (ev : AppEventServiceStatus) (N : Nat)
    (herr : (handleEvent env cfg st qe).err = some e)
    (hbelow : (qe.retries : Int) < cfg.maxRetries)
    (hmax : cfg.maxRetries = (N : Int))
    (hfail : ∀ i, i < N →
      ((handleEvent (envs i) cfg st { event := ev, retries := i }).err).isSome = true)
    (hsucc : (handleEvent (envs N) cfg st { event := ev, retries := N }).err = none) :
    ((handleEventWithRetries env cfg st qe).err = none ∧
      (handleEventWithRetries env cfg st qe).requeued =
        some { qe with retries := qe.retries + 1 } ∧
      retriesScheduled (handleEventWithRetries env cfg st qe).trace = 1) ∧
    ((runAttempts envs cfg (N + 1) 0 st { event := ev, retries := 0 }).err = none ∧
      retriesScheduled
        (runAttempts envs cfg (N + 1) 0 st { event := ev, retries := 0 }).trace = N) := by
  constructor
  · refine ⟨?_, ?_, ?_⟩
    · simp [handleEventWithRetries, herr, hbelow]
    · simp [handleEventWithRetries, herr, hbelow]
    · have hr2 : (handleEventWithRetries env cfg st qe).trace =
          (handleEvent env cfg st qe).trace ++ [.scheduleRetry (qe.retries + 1)] := by
        simp [handleEventWithRetries, herr, hbelow]
      rw [hr2, retriesScheduled_append, retriesScheduled_handleEvent]
      simp [retriesScheduled]
  · have h := runAttempts_fail_then_succeed envs cfg st ev N hmax hfail hsucc N le_rfl
    simpa using h

/-- The oracle family for the C8 witness: the status check fails on the first
two attempts and succeeds afterwards. -/
def retryEnvs : Nat → Env := fun i => if i < 2 then failStatusEnv else baseEnv

/-- A concrete configuration with max retries = 2. -/
def retryCfg : ProviderRegistrarConfig :=
  { isTestnet3 := false, maxRetries := 2, delayBetweenRetries := 1 }

/-- Witness for C8 with N = 2: two scheduled retries, then success, no error. -/
theorem C8_bounded_retry_witness :
    ((handleEventWithRetries failStatusEnv retryCfg [] sampleQe).err = none ∧
      (handleEventWithRetries failStatusEnv retryCfg [] sampleQe).requeued =
        some { event := sampleEvent, retries := 1 } ∧
      retriesScheduled (handleEventWithRetries failStatusEnv retryCfg [] sampleQe).trace = 1) ∧
    ((runAttempts retryEnvs retryCfg 3 0 [] { event := sampleEvent, retries := 0 }).err = none ∧
      retriesScheduled
        (runAttempts retryEnvs retryCfg 3 0 [] { event := sampleEvent, retries := 0 }).trace = 2) :=
  C8_bounded_retry failStatusEnv retryCfg [] sampleQe
    (.wrap "could not check registration status on BC" (.msg "rpc down"))
    retryEnvs sampleEvent 2 rfl (by decide) rfl (by decide) rfl

/-- C9: shutdown is idempotent — applying `stop` twice equals applying it
once (every invocation after the first is a no-op on the latch), any positive
number of invocations produces exactly one close of the shutdown channel, and
no number of invocations ever produces a second close (so the double-close
panic cannot occur).  `sync.Once.Do` serializes concurrent callers, so a
concurrent pair of invocations is one of these sequential iterations. -/
theorem C9_stop_idempotent :
    (∀ s, stop (stop s) = stop s) ∧
    (∀ n, 1 ≤ n → (stop^[n] initialStopState).closeCount = 1) ∧
    (∀ n, (stop^[n] initialStopState).closeCount ≤ 1) := by
  have key : ∀ m, stop^[m + 1] initialStopState = { onceDone := true, closeCount := 1 } := by
    intro m
    induction m with
    | zero => rfl
    | succ k ih =>
        rw [Function.iterate_succ_apply', ih]
        rfl
  refine ⟨?_, ?_, ?_⟩
  · intro s
    by_cases h : s.onceDone = true <;> simp [stop, h]
  · intro n hn
    obtain ⟨m, rfl⟩ : ∃ m, n = m + 1 := ⟨n - 1, by omega⟩
    rw [key]
  · intro n
    cases n with
    | zero => simp [initialStopState]
    | succ m => rw [key]

/-- Witness for C9: two stop invocations yield exactly one close. -/
theorem C9_stop_idempotent_witness :
    (stop^[2] initialStopState).closeCount = 1 :=
  C9_stop_idempotent.2.1 2 (by decide)

end Registry
